import Mathlib

/-!
Shallow embedding of `src/PyAti.py` (class `ATISensor`), a UDP/TCP client for
an ATI force/torque sensor.  Bytes are modelled as `Nat` (each `< 256` on the
wire), Python integers as `Int`/`Nat`, Python numbers used in division as `ℚ`
(the code divides with `/`, true division), and Python exceptions as an
explicit error type returned through `Except`.
-/

namespace PyAti

/-- Python exceptions raised (or raisable) by the code, with the data the
message carries.  `runtimeLengthError` is `RuntimeError("Invalid ATI response
length")`; `invalidResponseLength n` is `RuntimeError(f"Invalid response
length: {n}")`; `invalidHeader h` is `RuntimeError(f"Invalid header:
{hex(h)}")`. -/
inductive PyError where
  | runtimeLengthError : PyError
  | invalidResponseLength : Nat → PyError
  | invalidHeader : Nat → PyError
  | attributeError : String → PyError
  | zeroDivisionError : PyError
  | osError : String → PyError
deriving DecidableEq, Repr

/-- Big-endian 16-bit encoding of one field of `struct.pack('>HHHH', ...)`. -/
def u16be (n : Nat) : List Nat := [n / 256 % 256, n % 256]

/-- `struct.pack('>HHHH', a, b, c, d)`. -/
def packHHHH (a b c d : Nat) : List Nat := u16be a ++ u16be b ++ u16be c ++ u16be d

/-- `self.command = struct.pack('>HHHH', 0x1234, 2, 0, 1)` (line 11). -/
def command : List Nat := packHHHH 0x1234 2 0 1

/-- `BIAS_CMD = struct.pack('>HHHH', 0x1234, 0x0042, 0, 0)` (line 40). -/
def BIAS_CMD : List Nat := packHHHH 0x1234 0x0042 0 0

/-- `cmd = struct.pack('>B19x', 1)` (line 55): one byte 1 then 19 zero pad bytes. -/
def calibration_cmd : List Nat := 1 :: List.replicate 19 0

/-- Big-endian unsigned value of the 2 bytes of `data` starting at index `i`. -/
def u16at (data : List Nat) (i : Nat) : Nat :=
  data.getD i 0 * 256 + data.getD (i + 1) 0

/-- Big-endian unsigned value of the 4 bytes of `data` starting at index `i`. -/
def u32at (data : List Nat) (i : Nat) : Nat :=
  ((data.getD i 0 * 256 + data.getD (i + 1) 0) * 256 + data.getD (i + 2) 0) * 256
    + data.getD (i + 3) 0

/-- Reinterpret an unsigned 32-bit value as a signed one (two's complement),
as `struct.unpack` format `i` does. -/
def toInt32 (n : Nat) : Int :=
  if n < 2 ^ 31 then (n : Int) else (n : Int) - 2 ^ 32

/-- Signed big-endian 32-bit value of the 4 bytes of `data` starting at `i`. -/
def i32at (data : List Nat) (i : Nat) : Int := toInt32 (u32at data i)

/-- `list(struct.unpack('>6i', data[12:36]))` (line 21). -/
def unpack6i (data : List Nat) : List Int :=
  [i32at data 12, i32at data 16, i32at data 20, i32at data 24, i32at data 28,
   i32at data 32]

/-- The only mutable state of the UDP socket this model needs: whether
`close()` has been called. -/
structure UdpSocket where
  closed : Bool
deriving DecidableEq, Repr

/-- Observable socket operations of one UDP call. -/
inductive UdpEvent where
  | sendto : List Nat → UdpEvent
  | recvfrom : UdpEvent
deriving DecidableEq, Repr

/-- `close()` (lines 47-48): `self.sock.close()`.  Closing a Python socket
object is idempotent. -/
def close (_s : UdpSocket) : UdpSocket := { closed := true }

/-- `read_raw_counts` (lines 16-21), given the bytes `dgram` of the response
datagram on the wire.  On a closed socket, `sendto` raises `OSError` (errno
`EBADF`, "Bad file descriptor") before anything is sent.  Otherwise one
datagram `command` is sent and one receive is performed; `recvfrom(36)`
delivers at most 36 bytes — a datagram longer than 36 bytes is truncated to
its first 36 bytes and the excess is discarded.  A delivered buffer whose
length is not 36 raises `RuntimeError("Invalid ATI response length")`, else
bytes 12..36 of the buffer decode as six signed big-endian 32-bit
integers. -/
def read_raw_counts (s : UdpSocket) (dgram : List Nat) :
    List UdpEvent × Except PyError (List Int) :=
  if s.closed then ([], .error (.osError "Bad file descriptor"))
  else
    let data := dgram.take 36
    ([.sendto command, .recvfrom],
     if data.length ≠ 36 then .error .runtimeLengthError
     else .ok (unpack6i data))

/-- Python `/` on numbers: true division, raising `ZeroDivisionError` on a
zero divisor (never producing an infinity or NaN). -/
def pydiv (a b : ℚ) : Except PyError ℚ :=
  if b = 0 then .error .zeroDivisionError else .ok (a / b)

/-- The conversion part of `read_ft` (lines 26-33): divide the first three
raw counts by `counts_per_force` and the last three by `counts_per_torque`,
in source order. -/
def ft_from_counts (raw : List Int) (counts_per_force counts_per_torque : ℚ) :
    Except PyError (ℚ × ℚ × ℚ × ℚ × ℚ × ℚ) := do
  let fx ← pydiv (raw.getD 0 0) counts_per_force
  let fy ← pydiv (raw.getD 1 0) counts_per_force
  let fz ← pydiv (raw.getD 2 0) counts_per_force
  let tx ← pydiv (raw.getD 3 0) counts_per_torque
  let ty ← pydiv (raw.getD 4 0) counts_per_torque
  let tz ← pydiv (raw.getD 5 0) counts_per_torque
  return (fx, fy, fz, tx, ty, tz)

/-- `read_ft` (lines 23-33): `read_raw_counts` then scaling. -/
def read_ft (s : UdpSocket) (counts_per_force counts_per_torque : ℚ)
    (data : List Nat) : List UdpEvent × Except PyError (ℚ × ℚ × ℚ × ℚ × ℚ × ℚ) :=
  match read_raw_counts s data with
  | (evs, .error e) => (evs, .error e)
  | (evs, .ok raw) => (evs, ft_from_counts raw counts_per_force counts_per_torque)

/-- `bias_current_value` (lines 36-45).  `sendFails` says whether the
transport layer raises on the send attempt; on a closed socket `sendto`
raises `OSError` before sending.  Every exception of the `try` block is
caught and printed (lines 44-45), so the call always returns normally and
never reads a response. -/
def bias_current_value (s : UdpSocket) (sendFails : Bool) :
    List UdpEvent × Except PyError Unit :=
  if s.closed then ([], .ok ())
  else if sendFails then ([], .ok ())
  else ([.sendto BIAS_CMD], .ok ())

/-- Attribute names assigned on `self` by `__init__` (lines 7-14): the
sensor address is stored only in `addr`; no attribute `ip` is ever set. -/
def initAttributes : List String :=
  ["tcp_port", "addr", "sock", "command", "counts_per_force",
   "counts_per_torque", "timeout"]

/-- The record returned by `read_calibration_info` (lines 67-73), fields
decoded by `struct.unpack('>HBBII6H', response)` minus the checked header. -/
structure CalibrationInfo where
  force_unit_code : Nat
  torque_unit_code : Nat
  counts_per_force : Nat
  counts_per_torque : Nat
  scale_factors : List Nat
deriving DecidableEq, Repr

/-- Lines 59-73 of `read_calibration_info`: length check, big-endian decode
`>HBBII6H` (u16 header, u8 force unit, u8 torque unit, u32 counts-per-force,
u32 counts-per-torque, six u16 scale factors), header validation. -/
def parse_calibration (response : List Nat) : Except PyError CalibrationInfo :=
  if response.length ≠ 24 then .error (.invalidResponseLength response.length)
  else
    let header := u16at response 0
    if header ≠ 0x1234 then .error (.invalidHeader header)
    else
      .ok { force_unit_code := response.getD 2 0
            torque_unit_code := response.getD 3 0
            counts_per_force := u32at response 4
            counts_per_torque := u32at response 8
            scale_factors := [u16at response 12, u16at response 14,
                              u16at response 16, u16at response 18,
                              u16at response 20, u16at response 22] }

/-- `recv_all` (lines 94-102).  The TCP stream is modelled as the list of
byte chunks still pending delivery; `sock.recv(n)` returns the next pending
chunk capped at `n` bytes (the uncapped remainder stays pending), and
returns the empty bytes object exactly when the peer has closed, i.e. no
chunk is pending.  The loop accumulates until `len` bytes are gathered or a
recv comes back empty. -/
def recv_all_go : List (List Nat) → List Nat → Nat → List Nat
  | chunks, data, len =>
    if data.length < len then
      match chunks with
      | [] => data
      | c :: cs =>
        if c = [] then data
        else if c.length ≤ len - data.length then recv_all_go cs (data ++ c) len
        else data ++ c.take (len - data.length)
    else data

/-- `recv_all(sock, length)` starting from the empty accumulator (line 96). -/
def recv_all (chunks : List (List Nat)) (len : Nat) : List Nat :=
  recv_all_go chunks [] len

/-- Observable operations of one calibration TCP exchange. -/
inductive TcpEvent where
  | connect : TcpEvent
  | sendall : List Nat → TcpEvent
deriving DecidableEq, Repr

/-- `read_calibration_info` (lines 50-73) for an instance whose assigned
attributes are `attrs`: `settimeout(self.timeout)` reads `timeout`, then
`connect((self.ip, self.tcp_port))` reads `ip` and `tcp_port` — a missing
attribute raises `AttributeError` there, before anything is sent.  With the
attributes present it connects, sends the 20-byte request, reads up to 24
bytes with `recv_all` and parses them. -/
def read_calibration_info (attrs : List String) (chunks : List (List Nat)) :
    List TcpEvent × Except PyError CalibrationInfo :=
  if "timeout" ∈ attrs then
    if "ip" ∈ attrs then
      if "tcp_port" ∈ attrs then
        ([.connect, .sendall calibration_cmd],
         parse_calibration (recv_all chunks 24))
      else ([], .error (.attributeError "tcp_port"))
    else ([], .error (.attributeError "ip"))
  else ([], .error (.attributeError "timeout"))

/-- `describe_units` (lines 75-83): `force_units.get(code, 'Unknown')` or
`torque_units.get(code, 'Unknown')` over the two literal dictionaries. -/
def describe_units (code : Nat) (is_force : Bool) : String :=
  if is_force then
    if code = 1 then "Pound"
    else if code = 2 then "Newton"
    else if code = 3 then "Kilopound"
    else if code = 4 then "Kilonewton"
    else if code = 5 then "Kilogram"
    else if code = 6 then "Gram"
    else "Unknown"
  else
    if code = 1 then "Pound-inch"
    else if code = 2 then "Pound-foot"
    else if code = 3 then "Newton-meter"
    else if code = 4 then "Newton-millimeter"
    else if code = 5 then "Kilogram-centimeter"
    else if code = 6 then "Kilonewton-meter"
    else "Unknown"

end PyAti

deriving instance DecidableEq for Except

namespace PyAti

/-- A 36-byte RDT response datagram carrying raw counts
(1000000, 0, -500000, 0, 2000, 0) after its 12-byte status header. -/
def dgram36 : List Nat :=
  List.replicate 12 0 ++ [0, 15, 66, 64] ++ [0, 0, 0, 0] ++
    [255, 248, 94, 224] ++ [0, 0, 0, 0] ++ [0, 0, 7, 208] ++ [0, 0, 0, 0]

/-- A well-formed 24-byte calibration response: header 0x1234, force unit 2,
torque unit 3, counts-per-force 1000, counts-per-torque 100, scale factors
1..6. -/
def calibResponse : List Nat :=
  [0x12, 0x34, 2, 3] ++ [0, 0, 3, 232] ++ [0, 0, 0, 100] ++
    [0, 1, 0, 2, 0, 3, 0, 4, 0, 5, 0, 6]

/-- The same response with a corrupted header 0x1235. -/
def calibResponseBadHeader : List Nat :=
  [0x12, 0x35, 2, 3] ++ [0, 0, 3, 232] ++ [0, 0, 0, 100] ++
    [0, 1, 0, 2, 0, 3, 0, 4, 0, 5, 0, 6]

theorem ft_from_counts_ok (raw : List Int) (cf ct : ℚ) (hf : cf ≠ 0)
    (ht : ct ≠ 0) :
    ft_from_counts raw cf ct =
      .ok (raw.getD 0 0 / cf, raw.getD 1 0 / cf, raw.getD 2 0 / cf,
           raw.getD 3 0 / ct, raw.getD 4 0 / ct, raw.getD 5 0 / ct) := by
  simp [ft_from_counts, pydiv, hf, ht, Bind.bind, Except.bind, Functor.map,
    Except.map, Pure.pure, Except.pure]

theorem ft_from_counts_zero_force (raw : List Int) (ct : ℚ) :
    ft_from_counts raw 0 ct = .error .zeroDivisionError := by
  simp [ft_from_counts, pydiv, Bind.bind, Except.bind, Functor.map,
    Except.map, Pure.pure, Except.pure]

theorem ft_from_counts_zero_torque (raw : List Int) (cf : ℚ) (hf : cf ≠ 0) :
    ft_from_counts raw cf 0 = .error .zeroDivisionError := by
  simp [ft_from_counts, pydiv, hf, Bind.bind, Except.bind, Functor.map,
    Except.map, Pure.pure, Except.pure]

theorem read_raw_counts_dgram36 :
    read_raw_counts ⟨false⟩ dgram36 =
      ([.sendto command, .recvfrom], .ok [1000000, 0, -500000, 0, 2000, 0]) := by
  decide

theorem read_ft_dgram36 (cf ct : ℚ) :
    read_ft ⟨false⟩ cf ct dgram36 =
      ([.sendto command, .recvfrom],
       ft_from_counts [1000000, 0, -500000, 0, 2000, 0] cf ct) := rfl

/-- C1: for every raw count vector of six signed integers and nonzero scale
factors, the conversion of `read_ft` divides the first three counts by
counts-per-force and the last three by counts-per-torque with exact rational
division; and the full `read_ft` pipeline on a 36-byte datagram carrying raw
counts (1000000, 0, -500000, 0, 2000, 0) with counts_per_force = 1000000 and
counts_per_torque = 1000 returns (1, 0, -1/2, 0, 2, 0). -/
theorem claim_C1 :
    (∀ (r0 r1 r2 r3 r4 r5 : ℤ) (cf ct : ℚ), 0 < cf → 0 < ct →
      ft_from_counts [r0, r1, r2, r3, r4, r5] cf ct =
        .ok ((r0 : ℚ) / cf, (r1 : ℚ) / cf, (r2 : ℚ) / cf,
             (r3 : ℚ) / ct, (r4 : ℚ) / ct, (r5 : ℚ) / ct)) ∧
    read_ft ⟨false⟩ 1000000 1000 dgram36 =
      ([.sendto command, .recvfrom], .ok (1, 0, -1/2, 0, 2, 0)) := by
  constructor
  · intro r0 r1 r2 r3 r4 r5 cf ct hcf hct
    rw [ft_from_counts_ok _ _ _ (ne_of_gt hcf) (ne_of_gt hct)]
    simp [List.getD]
  · rw [read_ft_dgram36, ft_from_counts_ok _ _ _ (by norm_num) (by norm_num)]
    norm_num [List.getD]

/-- Witness for C1 at concrete raw counts and scale factors. -/
theorem claim_C1_witness :
    ft_from_counts [1000000, 0, -500000, 0, 2000, 0] 1000000 1000 =
      .ok (1, 0, -1/2, 0, 2, 0) := by
  rw [claim_C1.1 1000000 0 (-500000) 0 2000 0 1000000 1000 (by norm_num)
    (by norm_num)]
  norm_num

/-- C2 counterexample: a 40-byte response datagram does not raise — the
`recvfrom(36)` call truncates it to its first 36 bytes, whose bytes 12..36
are silently decoded into a reading. -/
theorem claim_C2_counterexample :
    (read_raw_counts ⟨false⟩ (List.replicate 40 0)).2 =
      .ok [0, 0, 0, 0, 0, 0] := by
  decide

/-- C2 (amended): `read_raw_counts` raises
`RuntimeError("Invalid ATI response length")` with no partial decode exactly
when the response datagram is shorter than 36 bytes; a datagram of 36 bytes
or more is truncated by `recvfrom(36)` to its first 36 bytes and those
decode (bytes 12..36, six signed big-endian 32-bit integers) into the
returned reading — an oversized datagram is silently accepted, not
rejected. -/
theorem claim_C2 (dgram : List Nat) :
    (dgram.length < 36 →
      (read_raw_counts ⟨false⟩ dgram).2 = .error .runtimeLengthError) ∧
    (36 ≤ dgram.length →
      (read_raw_counts ⟨false⟩ dgram).2 = .ok (unpack6i (dgram.take 36))) := by
  constructor <;> intro h
  · have h36 : (dgram.take 36).length ≠ 36 := by
      rw [List.length_take]; omega
    simp [read_raw_counts, h36, h]
  · have h36 : ¬(dgram.take 36).length ≠ 36 := by
      rw [List.length_take]; omega
    simp [read_raw_counts, h36, h]

/-- Witness for C2: a 35-byte response (one byte short) is rejected. -/
theorem claim_C2_witness :
    (read_raw_counts ⟨false⟩ (List.replicate 35 0)).2 =
      .error .runtimeLengthError :=
  (claim_C2 (List.replicate 35 0)).1 (by simp)

/-- C3: `__init__` stores the sensor address only in `addr` and never
assigns `ip`, so every `read_calibration_info` call on a constructed
instance raises `AttributeError` for `ip` with nothing sent, and never
returns a `CalibrationInfo`. -/
theorem claim_C3 (chunks : List (List Nat)) :
    read_calibration_info initAttributes chunks =
      ([], .error (.attributeError "ip")) := by
  simp [read_calibration_info, initAttributes]

/-- C4 counterexample: constructed with negative scale factors, `read_ft`
performs the divisions and returns scaled values normally — no rejection or
guard of a non-positive scale factor happens before division. -/
theorem claim_C4_counterexample :
    read_ft ⟨false⟩ (-1) (-1) dgram36 =
      ([.sendto command, .recvfrom],
       .ok (-1000000, 0, 500000, 0, -2000, 0)) := by
  rw [read_ft_dgram36, ft_from_counts_ok _ _ _ (by norm_num) (by norm_num)]
  norm_num [List.getD]

/-- C4 (amended): neither `__init__` nor `read_ft` validates the scale
factors.  A zero counts-per-force or counts-per-torque is not guarded: the
division itself raises `ZeroDivisionError` (so no infinity or NaN is
produced); any nonzero factor, negative ones included, is accepted and the
divisions are returned unchecked. -/
theorem claim_C4 (raw : List Int) (cf ct : ℚ) :
    (cf = 0 → ft_from_counts raw cf ct = .error .zeroDivisionError) ∧
    (cf ≠ 0 → ct = 0 → ft_from_counts raw cf ct = .error .zeroDivisionError) ∧
    (cf ≠ 0 → ct ≠ 0 → ft_from_counts raw cf ct =
      .ok (raw.getD 0 0 / cf, raw.getD 1 0 / cf, raw.getD 2 0 / cf,
           raw.getD 3 0 / ct, raw.getD 4 0 / ct, raw.getD 5 0 / ct)) := by
  refine ⟨?_, ?_, ?_⟩
  · rintro rfl; exact ft_from_counts_zero_force raw ct
  · rintro hf rfl; exact ft_from_counts_zero_torque raw cf hf
  · intro hf ht; exact ft_from_counts_ok raw cf ct hf ht

/-- Witness for C4 at a zero counts-per-force. -/
theorem claim_C4_witness :
    ft_from_counts [7, 7, 7, 7, 7, 7] 0 5 = .error .zeroDivisionError :=
  (claim_C4 [7, 7, 7, 7, 7, 7] 0 5).1 rfl

/-- C5: a 24-byte calibration response decodes big-endian as a 16-bit
header, 8-bit force-unit code, 8-bit torque-unit code, 32-bit
counts-per-force, 32-bit counts-per-torque and six 16-bit scale factors; a
header equal to 0x1234 yields that record, and any other header yields a
protocol error carrying the received header value. -/
theorem claim_C5 (response : List Nat) (h : response.length = 24) :
    (u16at response 0 = 0x1234 →
      parse_calibration response =
        .ok { force_unit_code := response.getD 2 0
              torque_unit_code := response.getD 3 0
              counts_per_force := u32at response 4
              counts_per_torque := u32at response 8
              scale_factors := [u16at response 12, u16at response 14,
                                u16at response 16, u16at response 18,
                                u16at response 20, u16at response 22] }) ∧
    (u16at response 0 ≠ 0x1234 →
      parse_calibration response =
        .error (.invalidHeader (u16at response 0))) := by
  constructor <;> intro hh <;> simp [parse_calibration, h, hh]

/-- Witness for C5: a good response decodes to its record (unit codes 2 and
3), and the same response with header 0x1235 is rejected naming 0x1235. -/
theorem claim_C5_witness :
    parse_calibration calibResponse =
      .ok { force_unit_code := 2, torque_unit_code := 3,
            counts_per_force := 1000, counts_per_torque := 100,
            scale_factors := [1, 2, 3, 4, 5, 6] } ∧
    parse_calibration calibResponseBadHeader =
      .error (.invalidHeader 0x1235) := by
  constructor
  · exact ((claim_C5 calibResponse (by decide)).1 (by decide)).trans (by decide)
  · exact ((claim_C5 calibResponseBadHeader (by decide)).2
      (by decide)).trans (by decide)

theorem recv_all_go_eof (chunks : List (List Nat)) :
    ∀ (data : List Nat) (len : Nat), (∀ c ∈ chunks, c ≠ []) →
      data.length + (chunks.map List.length).sum < len →
      recv_all_go chunks data len = data ++ chunks.flatten := by
  induction chunks with
  | nil =>
    intro data len _ h
    have hlt : data.length < len := by simpa using h
    simp [recv_all_go, hlt]
  | cons c cs ih =>
    intro data len hne h
    have hc : c ≠ [] := hne c (by simp)
    have hcpos : 0 < c.length := List.length_pos.mpr hc
    have hsum : data.length + (c.length + (cs.map List.length).sum) < len := by
      simpa using h
    have hlt : data.length < len := by omega
    have hle : c.length ≤ len - data.length := by omega
    rw [recv_all_go]
    rw [if_pos hlt]
    simp only [if_neg hc, if_pos hle]
    rw [ih (data ++ c) len (fun d hd => hne d (by simp [hd]))
      (by simp; omega)]
    simp

/-- C6: when the peer closes the calibration connection before 24 bytes are
delivered, the `recv_all` loop returns everything that arrived, and
`read_calibration_info` raises the short-read error stating that received
length; a decode succeeds only when exactly 24 bytes were gathered. -/
theorem claim_C6 (chunks : List (List Nat))
    (hne : ∀ c ∈ chunks, c ≠ [])
    (hshort : (chunks.map List.length).sum < 24) :
    recv_all chunks 24 = chunks.flatten ∧
    parse_calibration (recv_all chunks 24) =
      .error (.invalidResponseLength ((chunks.map List.length).sum)) ∧
    (∀ (cs : List (List Nat)) (info : CalibrationInfo),
      parse_calibration (recv_all cs 24) = .ok info →
      (recv_all cs 24).length = 24) := by
  have hall : recv_all chunks 24 = chunks.flatten :=
    recv_all_go_eof chunks [] 24 hne (by simpa using hshort)
  have hlen : (recv_all chunks 24).length = (chunks.map List.length).sum := by
    rw [hall, List.length_flatten]
  refine ⟨hall, ?_, ?_⟩
  · have hs24 : (chunks.map List.length).sum ≠ 24 := by omega
    simp [parse_calibration, hlen, hs24]
  · intro cs info hok
    by_contra hl
    simp [parse_calibration, hl] at hok

/-- Witness for C6: the peer sends 3 bytes then 1 byte and closes; the
whole 4 bytes are returned and the short-read error names length 4. -/
theorem claim_C6_witness :
    recv_all [[1, 2, 3], [4]] 24 = [1, 2, 3, 4] ∧
    parse_calibration (recv_all [[1, 2, 3], [4]] 24) =
      .error (.invalidResponseLength 4) := by
  have h := claim_C6 [[1, 2, 3], [4]] (by decide) (by decide)
  exact ⟨h.1.trans (by decide), h.2.1.trans (by decide)⟩

/-- C7: `describe_units` is a total lookup: codes 1..6 map to the
documented force names when `is_force` is true and to the documented torque
names when it is false, and every code outside 1..6 maps to "Unknown". -/
theorem claim_C7 (code : Nat) :
    (describe_units 1 true = "Pound" ∧ describe_units 2 true = "Newton" ∧
     describe_units 3 true = "Kilopound" ∧
     describe_units 4 true = "Kilonewton" ∧
     describe_units 5 true = "Kilogram" ∧ describe_units 6 true = "Gram" ∧
     describe_units 1 false = "Pound-inch" ∧
     describe_units 2 false = "Pound-foot" ∧
     describe_units 3 false = "Newton-meter" ∧
     describe_units 4 false = "Newton-millimeter" ∧
     describe_units 5 false = "Kilogram-centimeter" ∧
     describe_units 6 false = "Kilonewton-meter") ∧
    (¬(1 ≤ code ∧ code ≤ 6) →
      describe_units code true = "Unknown" ∧
      describe_units code false = "Unknown") := by
  constructor
  · exact ⟨rfl, rfl, rfl, rfl, rfl, rfl, rfl, rfl, rfl, rfl, rfl, rfl⟩
  · intro h
    have h1 : code ≠ 1 := by omega
    have h2 : code ≠ 2 := by omega
    have h3 : code ≠ 3 := by omega
    have h4 : code ≠ 4 := by omega
    have h5 : code ≠ 5 := by omega
    have h6 : code ≠ 6 := by omega
    constructor <;> simp [describe_units, h1, h2, h3, h4, h5, h6]

/-- Witness for C7 at the out-of-range code 7. -/
theorem claim_C7_witness :
    describe_units 7 true = "Unknown" ∧ describe_units 7 false = "Unknown" :=
  (claim_C7 7).2 (by omega)

/-- C8: whatever the socket state and whether the transport send raises,
`bias_current_value` returns normally (the `try`/`except` swallows every
exception) and never performs a receive. -/
theorem claim_C8 (s : UdpSocket) (sendFails : Bool) :
    (bias_current_value s sendFails).2 = .ok () ∧
    UdpEvent.recvfrom ∉ (bias_current_value s sendFails).1 := by
  rcases s with ⟨c⟩
  cases c <;> cases sendFails <;> simp [bias_current_value]

/-- C9 counterexample: after `close()`, `bias_current_value` does not fail
at all — the caught `OSError` is only printed and the call returns
normally, so not every post-close call fails with a "closed" error. -/
theorem claim_C9_counterexample :
    bias_current_value (close ⟨false⟩) false = ([], .ok ()) := rfl

/-- C9 (amended): `close()` is idempotent, and after it `read_raw_counts`
and `read_ft` fail — but with the socket's `OSError` ("Bad file
descriptor"), not a dedicated "closed" error — while `bias_current_value`
catches that error and returns normally instead of failing. -/
theorem claim_C9 (s : UdpSocket) (data : List Nat) (cf ct : ℚ) (f : Bool) :
    close (close s) = close s ∧
    (read_raw_counts (close s) data).2 =
      .error (.osError "Bad file descriptor") ∧
    (read_ft (close s) cf ct data).2 =
      .error (.osError "Bad file descriptor") ∧
    bias_current_value (close s) f = ([], .ok ()) := by
  refine ⟨rfl, rfl, ?_, rfl⟩
  unfold read_ft
  rw [show read_raw_counts (close s) data =
    ([], .error (.osError "Bad file descriptor")) from rfl]

/-- C10: on the open socket, one `read_raw_counts` call sends exactly one
datagram — the big-endian packing of (0x1234, 2, 0, 1) — and performs
exactly one receive with nothing else; one `bias_current_value` call sends
exactly the big-endian packing of (0x1234, 0x0042, 0, 0). -/
theorem claim_C10 (data : List Nat) :
    (read_raw_counts ⟨false⟩ data).1 = [.sendto command, .recvfrom] ∧
    command = [0x12, 0x34, 0x00, 0x02, 0x00, 0x00, 0x00, 0x01] ∧
    (bias_current_value ⟨false⟩ false).1 = [.sendto BIAS_CMD] ∧
    BIAS_CMD = [0x12, 0x34, 0x00, 0x42, 0x00, 0x00, 0x00, 0x00] := by
  exact ⟨rfl, rfl, rfl, rfl⟩

end PyAti
